import Mathlib

/-!
Shallow embedding of the Nomad driver (`internal/drivers/nomad/driver.go`)
of drone-runner-aws, together with proofs about the lifecycle orchestrator
(`Create` / `Destroy`), the poller (`pollForJob`), the machine resolver
(`fetchMachine`), the job templates (`resourceJob` / `initJob` /
`destroyJob`) and the job-id derivation functions.

Scheduler RPCs are modelled by environments that record the scheduler's
responses; the side effects the driver performs (job registration,
deregistration, polling) are collected in an explicit action trace.
Durations are modelled in seconds.
-/

set_option linter.unusedVariables false

namespace DroneNomad

/-- Modelled from the spec: `JobStatus` is a closed enumeration mirroring the
scheduler's job status vocabulary (`Pending`, `Running`, `Dead`); the type and
its constants live in a sibling file of the package that is not part of the
given source. `Dead` is always implicitly a terminal state for the poller. -/
inductive JobStatus
  | pending
  | running
  | dead
deriving DecidableEq, Repr

/-- `machineFrequencyMhz = 5100` from the driver's constant block. -/
def machineFrequencyMhz : Int := 5100

/-- `clientDisconnectTimeout = 4 * time.Minute`, in seconds. -/
def clientDisconnectTimeout : Nat := 240

/-- `destroyRetryAttempts = 3`. -/
def destroyRetryAttempts : Int := 3

/-- `resourceJobTimeout = 3 * time.Minute`, in seconds. -/
def resourceJobTimeout : Nat := 180

/-- `initTimeout = 5 * time.Minute`, in seconds. -/
def initTimeout : Nat := 300

/-- `destroyTimeout = 10 * time.Minute`, in seconds. -/
def destroyTimeout : Nat := 600

/-- `minNomadCPUMhz = 40`. -/
def minNomadCPUMhz : Int := 40

/-- `minNomadMemoryMb = 20`. -/
def minNomadMemoryMb : Int := 20

/-- `ignitePath = "/usr/local/bin/ignite"`. -/
def ignitePath : String := "/usr/local/bin/ignite"

/-- `destroyJobID(s) = fmt.Sprintf("destroy_job_%s", s)`. -/
def destroyJobID (s : String) : String := "destroy_job_" ++ s

/-- `initJobID(s) = fmt.Sprintf("init_job_%s", s)`. -/
def initJobID (s : String) : String := "init_job_" ++ s

/-- `resourceJobID(s) = fmt.Sprintf("init_job_resources_%s", s)`. -/
def resourceJobID (s : String) : String := "init_job_resources_" ++ s

/-- Two's-complement wrap-around of a 64-bit Go `int`: the value congruent
modulo `2^64` that lies in `[-2^63, 2^63)`. -/
def int64Wrap (x : Int) : Int := (x + 2 ^ 63) % 2 ^ 64 - 2 ^ 63

/-- Go `int` multiplication (64-bit, wrapping). -/
def goMul (a b : Int) : Int := int64Wrap (a * b)

/-- Go `int` subtraction (64-bit, wrapping). -/
def goSub (a b : Int) : Int := int64Wrap (a - b)

/-- Modelled from the spec: `convertGigsToMegs` is a helper defined outside
the given source; per the spec, `memory_mb = vm_memory_gb × 1024`, computed
in Go `int` arithmetic (so it wraps at 64 bits). -/
def convertGigsToMegs (g : Int) : Int := goMul g 1024

/-- The reservation task's cpu request, `machineFrequencyMhz*cpus - 109`,
in Go `int` arithmetic. -/
def resourceJobCpu (cpus : Int) : Int := goSub (goMul machineFrequencyMhz cpus) 109

/-- The reservation task's memory request, `convertGigsToMegs(memGB) - 53`,
in Go `int` arithmetic. -/
def resourceJobMem (memGB : Int) : Int := goSub (convertGigsToMegs memGB) 53

/-- One character step of Go's decimal scan: is this a decimal digit? -/
def isDigitChar (c : Char) : Bool := '0' ≤ c ∧ c ≤ '9'

/-- Embeds `strconv.Atoi`: an optional sign followed by a non-empty run of
decimal digits, nothing else, and the value must fit a 64-bit `int`
(`Atoi` is `ParseInt(s, 10, 0)` and errors on both syntax and range). -/
def goAtoi (s : String) : Option Int :=
  let (neg, digits) :=
    match s.data with
    | '-' :: rest => (true, rest)
    | '+' :: rest => (false, rest)
    | l => (false, l)
  if digits.isEmpty then none
  else if digits.all isDigitChar then
    let v : Int := digits.foldl (fun acc c => acc * 10 + (c.toNat - '0'.toNat)) 0
    let v := if neg then -v else v
    if -(2 ^ 63) ≤ v ∧ v < 2 ^ 63 then some v else none
  else none

/-- Embeds `strings.Split(s, ":")[0]`: the segment of `s` before the first
colon (the whole string when there is none). -/
def splitHostSegment (s : String) : String :=
  String.mk (s.data.takeWhile (fun c => c ≠ ':'))

/-- One dotted-decimal IPv4 field as Go's `parseIPv4` accepts it: non-empty,
all digits, no leading zero on a multi-digit field, value at most 255. -/
def validIPv4Field (f : List Char) : Bool :=
  match f with
  | [] => false
  | c :: rest =>
    (c :: rest).all isDigitChar &&
    (rest.isEmpty || c ≠ '0') &&
    (c :: rest).foldl (fun acc d => acc * 10 + (d.toNat - '0'.toNat)) 0 ≤ 255

/-- Splits a character list at every dot. -/
def splitOnDot (l : List Char) : List (List Char) :=
  match l with
  | [] => [[]]
  | c :: rest =>
    let r := splitOnDot rest
    if c = '.' then [] :: r
    else
      match r with
      | [] => [[c]]
      | f :: fs => (c :: f) :: fs

/-- Embeds `net.ParseIP ≠ nil` on the strings `fetchMachine` feeds it.
The argument is always `splitHostSegment` of a node address, so it never
contains a colon and `ParseIP` can only succeed through its dotted-decimal
IPv4 path: exactly four fields, each a valid decimal octet. -/
def goParseIPOk (s : String) : Bool :=
  match splitOnDot s.data with
  | [a, b, c, d] => validIPv4Field a && validIPv4Field b && validIPv4Field c && validIPv4Field d
  | _ => false

/-- `api.RestartPolicy`, restricted to the one field the driver sets. -/
structure RestartPolicy where
  attempts : Int
deriving DecidableEq, Repr

/-- `api.ReschedulePolicy`, restricted to the fields the driver sets. -/
structure ReschedulePolicy where
  attempts : Int
  unlimited : Bool
deriving DecidableEq, Repr

/-- `api.Resources`, restricted to the fields the driver sets. -/
structure TaskResources where
  cpu : Int
  memoryMB : Int
deriving DecidableEq, Repr

/-- `api.Constraint` as used for node pinning. -/
structure Constraint where
  lTarget : String
  rTarget : String
  operand : String
deriving DecidableEq, Repr

/-- `api.TaskLifecycle`, restricted to the fields the driver sets. -/
structure TaskLifecycle where
  sidecar : Bool
  hook : String
deriving DecidableEq, Repr

/-- `api.Task`, restricted to the fields the driver sets. The shell
argument strings passed via `Config["args"]` are opaque payloads that no
property here inspects, so they are not carried. -/
structure Task where
  name : String
  driver : String
  resources : Option TaskResources
  command : String
  lifecycle : Option TaskLifecycle
deriving DecidableEq, Repr

/-- `api.TaskGroup`, restricted to the fields the driver sets.
`dynamicPortLabels` records the `DynamicPorts` labels of the group's
network resource (empty when the template requests no network). -/
structure TaskGroup where
  name : String
  count : Int
  stopAfterClientDisconnect : Option Nat
  restartPolicy : Option RestartPolicy
  dynamicPortLabels : List String
  tasks : List Task
deriving DecidableEq, Repr

/-- `api.Job`, restricted to the fields the driver sets. -/
structure Job where
  id : String
  name : String
  jobType : String
  datacenters : List String
  reschedule : Option ReschedulePolicy
  constraints : List Constraint
  taskGroups : List TaskGroup
deriving DecidableEq, Repr

/-- `minNomadResources()`. -/
def minNomadResources : TaskResources :=
  { cpu := minNomadCPUMhz, memoryMB := minNomadMemoryMb }

/-- The driver `config` struct (scheduler client and TLS material omitted;
the `noop` test path swaps in dummy templates defined outside the given
source and is not modelled — all properties concern the real templates). -/
structure Config where
  vmImage : String
  vmMemoryGB : String
  vmCpus : String
  vmDiskSize : String
deriving DecidableEq, Repr

/-- `resourceJob`: the reservation job occupying `machineFrequencyMhz*cpus - 109`
MHz and `convertGigsToMegs(memGB) - 53` MiB (both computed in Go `int`
arithmetic, which wraps at 64 bits), with a dynamic port labelled by the vm
id, batch type, reschedule attempts 0, restart attempts 0, a single task
group of count 1 containing the single `sleep_and_ping` task. -/
def resourceJob (cpus memGB : Int) (vm : String) : Job × String :=
  let id := resourceJobID vm
  let portLabel := vm
  let cpu := resourceJobCpu cpus
  let mem := resourceJobMem memGB
  let job : Job :=
    { id := id
      name := id
      jobType := "batch"
      datacenters := ["dc1"]
      reschedule := some { attempts := 0, unlimited := false }
      constraints := []
      taskGroups :=
        [{ name := "init_task_group_resource_" ++ vm
           count := 1
           stopAfterClientDisconnect := some clientDisconnectTimeout
           restartPolicy := some { attempts := 0 }
           dynamicPortLabels := [portLabel]
           tasks :=
             [{ name := "sleep_and_ping"
                driver := "raw_exec"
                resources := some { cpu := cpu, memoryMB := mem }
                command := "/usr/bin/su"
                lifecycle := none }] }] }
  (job, id)

/-- `initJob`: the VM creation job pinned to `nodeID`, batch type, reschedule
attempts 0, restart attempts 0, one task group of count 1 with four tasks
(prestart script drop, main ignite run, poststop ignite exec, poststop
cleanup), each at `minNomadResources`. The startup script only feeds the
shell argument strings, which are not carried in the model. -/
def initJob (vm startupScript : String) (hostPort : Int) (nodeID : String) : Job × String × String :=
  let id := initJobID vm
  let group := "init_task_group_" ++ vm
  let job : Job :=
    { id := id
      name := vm
      jobType := "batch"
      datacenters := ["dc1"]
      reschedule := some { attempts := 0, unlimited := false }
      constraints :=
        [{ lTarget := "${node.unique.id}", rTarget := nodeID, operand := "=" }]
      taskGroups :=
        [{ name := group
           count := 1
           stopAfterClientDisconnect := some clientDisconnectTimeout
           restartPolicy := some { attempts := 0 }
           dynamicPortLabels := []
           tasks :=
             [{ name := "create_startup_script_on_host"
                driver := "raw_exec"
                resources := some minNomadResources
                command := "/usr/bin/su"
                lifecycle := some { sidecar := false, hook := "prestart" } },
              { name := "ignite_run"
                driver := "raw_exec"
                resources := some minNomadResources
                command := "/usr/bin/su"
                lifecycle := none },
              { name := "ignite_exec"
                driver := "raw_exec"
                resources := some minNomadResources
                command := "/usr/bin/su"
                lifecycle := some { sidecar := false, hook := "poststop" } },
              { name := "cleanup_startup_script_from_host"
                driver := "raw_exec"
                resources := some minNomadResources
                command := "/usr/bin/su"
                lifecycle := some { sidecar := false, hook := "poststop" } }] }] }
  (job, id, group)

/-- `destroyJob`: the teardown job pinned to `nodeID`, batch type, a single
task group of count 1 with restart attempts `destroyRetryAttempts` and the
single `ignite_stop_and_rm` task. The source sets no `Reschedule` policy on
this job, so the field is `none`. The job `Name` is a fresh `random(20)`
string; it is modelled by the job id not being inspected anywhere. -/
def destroyJob (vm nodeID : String) : Job × String :=
  let id := destroyJobID vm
  let constraint : Constraint :=
    { lTarget := "${node.unique.id}", rTarget := nodeID, operand := "=" }
  let job : Job :=
    { id := id
      name := id
      jobType := "batch"
      datacenters := ["dc1"]
      reschedule := none
      constraints := [constraint]
      taskGroups :=
        [{ name := "delete_task_group_" ++ vm
           count := 1
           stopAfterClientDisconnect := some clientDisconnectTimeout
           restartPolicy := some { attempts := destroyRetryAttempts }
           dynamicPortLabels := []
           tasks :=
             [{ name := "ignite_stop_and_rm"
                driver := "raw_exec"
                resources := some minNomadResources
                command := "/usr/bin/su"
                lifecycle := none }] }] }
  (job, id)

/-- One entry of the allocation list returned by `Jobs().Allocations`:
the fields `fetchMachine` reads from `l[0]`. -/
structure AllocStub where
  nodeID : String
  id : String
deriving DecidableEq, Repr

/-- One `api.NetworkResource` of an allocation's resources: the dynamic
port values `fetchMachine` reads. -/
structure NetworkResource where
  dynamicPorts : List Int
deriving DecidableEq, Repr

/-- The allocation detail returned by `Allocations().Info`: the
`Resources.Networks` list (`[]` models both a nil and an empty slice,
which the source treats identically). -/
structure AllocDetail where
  networks : List NetworkResource
deriving DecidableEq, Repr

/-- The scheduler responses `fetchMachine` consumes: the allocation list
for the job, the allocation detail, and the node's `HTTPAddr`. Each is an
`Except` so that a failing RPC is representable. -/
structure MachineEnv where
  allocationsResp : Except String (List AllocStub)
  allocInfoResp : Except String AllocDetail
  nodeResp : Except String String
deriving Repr

/-- The successful result of `fetchMachine`: `(ip, nodeID, port)`. -/
structure Machine where
  ip : String
  nodeID : String
  port : Int
deriving DecidableEq, Repr

/-- Embeds `fetchMachine`, applied to the three scheduler responses it
consumes in order (`Jobs().Allocations`, `Allocations().Info`,
`Nodes().Info`). The outer `Option` models Go panics: the source indexes
`alloc.Resources.Networks[0].DynamicPorts[0]` with no emptiness check on
`DynamicPorts`, so an allocation whose first network has no dynamic port
makes the function panic (`none`); every other outcome is `some` of the
returned value or error. -/
def fetchMachine : Except String (List AllocStub) → Except String AllocDetail →
    Except String String → Option (Except String Machine)
  | .error e, _, _ => some (.error e)
  | .ok [], _, _ => some (.error "scheduler: no allocation found for the job")
  | .ok (a :: _), allocInfoResp, nodeResp =>
    if a.nodeID = "" ∨ a.id = "" then
      some (.error "scheduler: could not find an allocation identifier for the job")
    else
      match allocInfoResp with
      | .error e => some (.error e)
      | .ok alloc =>
        match alloc.networks with
        | [] => some (.error "scheduler: could not allocate network and ports for job")
        | nw :: _ =>
          match nw.dynamicPorts with
          | [] => none
          | port :: _ =>
            if port ≤ 0 ∨ port > 65535 then
              some (.error "scheduler: port generated is not a valid port")
            else
              match nodeResp with
              | .error e => some (.error e)
              | .ok httpAddr =>
                let ip := splitHostSegment httpAddr
                if goParseIPOk ip then
                  some (.ok { ip := ip, nodeID := a.nodeID, port := port })
                else
                  some (.error "scheduler: could not parse client machine IP")

/-- A scheduler side effect performed by the driver: a `Jobs().Register`
call for the job with the given id, a `Jobs().Deregister(id, purge, …)`
call, or a `pollForJob(id, …, remove, …)` invocation. -/
inductive Action
  | register (id : String)
  | deregister (id : String) (purge : Bool)
  | poll (id : String) (remove : Bool)
deriving DecidableEq, Repr

/-- Embeds `deregisterJob`. The source ignores its `purge` parameter and
always issues `Jobs().Deregister(id, true, …)`; `clientOk` is the
scheduler's verdict on that call. -/
def deregisterJob (id : String) (purge : Bool) (clientOk : Bool) : Except String Unit × List Action :=
  ((if clientOk then .ok () else .error "scheduler: could not deregister job"),
   [Action.deregister id true])

/-- One iteration's worth of input to the poll loop of `pollForJob`: the
enclosing context is cancelled, the `maxPollTime` timer fires, the
`Jobs().Info` long poll fails, returns a nil job, or returns a job with
the given status. -/
inductive PollEvent
  | ctxDone
  | timeout
  | fetchErr
  | fetchNil
  | fetchOk (s : JobStatus)
deriving DecidableEq, Repr

/-- The `L:`-labelled loop of `pollForJob`: consumes events in order,
tracking the `job` variable (the status of the last `Jobs().Info` result;
a failing or nil fetch overwrites it with `none`, as the Go multi-assignment
does) and returns `(job, terminal)` at the first loop exit. An exhausted
event list is the `maxPollTime` timer firing. -/
def pollLoop (terminal : List JobStatus) : Option JobStatus → List PollEvent → Option JobStatus × Bool
  | job, [] => (job, false)
  | job, e :: es =>
    match e with
    | .ctxDone => (job, false)
    | .timeout => (job, false)
    | .fetchErr => pollLoop terminal none es
    | .fetchNil => pollLoop terminal none es
    | .fetchOk s =>
      if terminal.contains s then (some s, true)
      else pollLoop terminal (some s) es

/-- The three ways `pollForJob` can return: the job reached a status in the
terminal set (success, carrying that status); the final `job` variable was
nil (`"could not poll for job"`); or the job was observed but never in a
terminal state (`"scheduler: job never reached terminal state"`). -/
inductive PollOutcome
  | success (last : JobStatus)
  | noJob
  | neverTerminal (last : JobStatus)
deriving DecidableEq, Repr

/-- The result of `pollForJob`: its outcome plus the scheduler actions it
performed (the detached `deregisterJob(id, true)` goroutine when `remove`
holds and the job never reached a terminal state). -/
structure PollReturn where
  outcome : PollOutcome
  actions : List Action
deriving DecidableEq, Repr

/-- Embeds `pollForJob`. `timeout` is the duration fed to `time.After`; in
this trace model its expiry is the `.timeout` event, so the numeric value
does not influence the result. `Dead` is appended to the caller's terminal
states, the loop runs over the event trace, and on a non-terminal exit with
`remove` set the job is deregistered (purge) in a detached goroutine before
the error is returned. -/
def pollForJob (id : String) (timeout : Nat) (remove : Bool) (terminalStates : List JobStatus)
    (events : List PollEvent) : PollReturn :=
  match pollLoop (terminalStates ++ [JobStatus.dead]) none events with
  | (none, _) => { outcome := .noJob, actions := [] }
  | (some s, true) => { outcome := .success s, actions := [] }
  | (some s, false) =>
    if remove then
      { outcome := .neverTerminal s, actions := (deregisterJob id true true).2 }
    else
      { outcome := .neverTerminal s, actions := [] }

/-- Embeds `checkTaskGroupStatus`. The response of `Jobs().Summary` is an
`Except` (RPC failure) of an `Option` (nil summary or nil summary map) of
an association list from task-group name to its `Failed` counter. -/
def checkTaskGroupStatus (summaryResp : Except String (Option (List (String × Nat))))
    (taskGroup : String) : Except String Unit :=
  match summaryResp with
  | .error _ => .error "could not get summary of the job"
  | .ok none => .error "could not get summary of the job"
  | .ok (some m) =>
    match m.lookup taskGroup with
    | none => .error "could not get summary of the task group"
    | some failed =>
      if failed > 0 then .error "found failed tasks" else .ok ()

/-- The scheduler responses consumed by one iteration of `Destroy`:
the verdict on deregistering the reservation job, the verdict on
registering the destroy job, and the destroy-job poll trace. -/
structure DestroyEnv where
  deregResourceOk : Bool
  registerDestroyOk : Bool
  pollEvents : List PollEvent
deriving Repr

/-- Embeds the body of `Destroy`'s per-instance loop for an instance with
id `vm` and node `nodeID`: build the destroy job, deregister the
reservation job `resourceJobID vm` (purge) — a failure is logged and does
not abort — then register the destroy job (a failure is returned), then
poll for `Dead` with `destroyTimeout` and `remove = false`. -/
def destroyInstance (vm nodeID : String) (env : DestroyEnv) : Except String Unit × List Action :=
  let (job, jobID) := destroyJob vm nodeID
  let resourceJobID' := resourceJobID vm
  let (_deregResult, deregActs) := deregisterJob resourceJobID' true env.deregResourceOk
  if ¬ env.registerDestroyOk then
    (.error "scheduler: could not register destroy job", deregActs ++ [Action.register jobID])
  else
    let pollRet := pollForJob jobID destroyTimeout false [JobStatus.dead] env.pollEvents
    let acts := deregActs ++ [Action.register jobID, Action.poll jobID false] ++ pollRet.actions
    match pollRet.outcome with
    | .success _ => (.ok (), acts)
    | .noJob => (.error "could not poll for job", acts)
    | .neverTerminal _ => (.error "scheduler: job never reached terminal state", acts)

/-- The all-ok scheduler environment a `Destroy` iteration falls back to
when its parallel environment list is exhausted. -/
def defaultDestroyEnv : DestroyEnv :=
  { deregResourceOk := true, registerDestroyOk := true,
    pollEvents := [PollEvent.fetchOk JobStatus.dead] }

/-- Embeds `Destroy`: sequential over the instance list, aborting on the
first error (the per-instance environments are supplied in a parallel
list; an exhausted environment list behaves as an all-ok scheduler with an
immediately dead destroy job). -/
def Destroy : List (String × String) → List DestroyEnv → Except String Unit × List Action
  | [], _ => (.ok (), [])
  | (vm, nodeID) :: rest, envs =>
    match destroyInstance vm nodeID (envs.headD defaultDestroyEnv) with
    | (.error e, acts) => (.error e, acts)
    | (.ok _, acts) =>
      match Destroy rest envs.tail with
      | (r', acts') => (r', acts ++ acts')

/-- The instance record `Create` returns (fields the model tracks). -/
structure Instance where
  id : String
  nodeID : String
  address : String
  port : Int
deriving DecidableEq, Repr

/-- The scheduler responses consumed by one `Create` call: the verdict on
registering the reservation job, the reservation poll trace, the machine
resolver's environment, the verdict on registering the init job, the init
poll trace, the job summary, and the environment of the compensating
`Destroy` call. -/
structure CreateEnv where
  registerResourceOk : Bool
  pollResourceEvents : List PollEvent
  machine : MachineEnv
  registerInitOk : Bool
  pollInitEvents : List PollEvent
  summaryResp : Except String (Option (List (String × Nat)))
  destroyEnv : DestroyEnv
deriving Repr

/-- Embeds `Create` (the real, non-noop path) for the vm id `vm` drawn by
`random(20)` and the startup script produced by `generateStartupScript`.
The outer `Option` propagates a `fetchMachine` panic. Steps, as in the
source: Atoi the cpu and memory strings (validation errors return before
any scheduler call); build and register the reservation job; poll it for
`Running`/`Dead` with `remove = true`; resolve the machine, deregistering
the reservation on failure; build and register the init job, deregistering
the reservation on failure; poll the init job for `Dead` with
`remove = true`, invoking `Destroy` on the partial instance on failure;
check the init task group summary, invoking `Destroy` on failure. -/
def Create (p : Config) (vm startupScript : String) (env : CreateEnv) :
    Option (Except String Instance × List Action) :=
  match goAtoi p.vmCpus with
  | none => some (.error "could not convert VM cpus to integer", [])
  | some cpus =>
    match goAtoi p.vmMemoryGB with
    | none => some (.error "could  not convert VM memory to integer", [])
    | some memGB =>
      let (resourceJob', resourceJobID') := resourceJob cpus memGB vm
      if ¬ env.registerResourceOk then
        some (.error "scheduler: could not register job", [Action.register resourceJobID'])
      else
        let pollRes := pollForJob resourceJobID' resourceJobTimeout true
          [JobStatus.running, JobStatus.dead] env.pollResourceEvents
        let acts0 := [Action.register resourceJobID', Action.poll resourceJobID' true] ++
          pollRes.actions
        match pollRes.outcome with
        | .noJob =>
          some (.error "scheduler: could not find a node with available resources", acts0)
        | .neverTerminal _ =>
          some (.error "scheduler: could not find a node with available resources", acts0)
        | .success _ =>
          match fetchMachine env.machine.allocationsResp env.machine.allocInfoResp
              env.machine.nodeResp with
          | none => none
          | some (.error e) =>
            some (.error e, acts0 ++ (deregisterJob resourceJobID' true true).2)
          | some (.ok m) =>
            let (initJob', initJobID', initTaskGroup) := initJob vm startupScript m.port m.nodeID
            let inst : Instance :=
              { id := vm, nodeID := m.nodeID, address := m.ip, port := m.port }
            if ¬ env.registerInitOk then
              some (.error "scheduler: could not register job",
                acts0 ++ [Action.register initJobID'] ++ (deregisterJob resourceJobID' true true).2)
            else
              let pollInit := pollForJob initJobID' initTimeout true [JobStatus.dead]
                env.pollInitEvents
              let acts1 := acts0 ++ [Action.register initJobID', Action.poll initJobID' true] ++
                pollInit.actions
              match pollInit.outcome with
              | .success _ =>
                match checkTaskGroupStatus env.summaryResp initTaskGroup with
                | .ok () => some (.ok inst, acts1)
                | .error e =>
                  let (_, dacts) := Destroy [(vm, m.nodeID)] [env.destroyEnv]
                  some (.error ("scheduler: init job failed with error: " ++ e), acts1 ++ dacts)
              | .noJob =>
                let (_, dacts) := Destroy [(vm, m.nodeID)] [env.destroyEnv]
                some (.error "could not poll for job", acts1 ++ dacts)
              | .neverTerminal _ =>
                let (_, dacts) := Destroy [(vm, m.nodeID)] [env.destroyEnv]
                some (.error "scheduler: job never reached terminal state", acts1 ++ dacts)

/-- First task's resources of a job (first task group, first task). -/
def firstTaskResources (j : Job) : Option TaskResources :=
  match j.taskGroups with
  | [] => none
  | g :: _ =>
    match g.tasks with
    | [] => none
    | t :: _ => t.resources

lemma resourceJobID_ne_initJobID (s : String) : resourceJobID s ≠ initJobID s := by
  intro h
  have h2 := congrArg String.length h
  simp [resourceJobID, initJobID, String.length_append] at h2
  exact absurd h2 (by decide)

lemma resourceJobID_ne_destroyJobID (s : String) : resourceJobID s ≠ destroyJobID s := by
  intro h
  have h2 := congrArg String.length h
  simp [resourceJobID, destroyJobID, String.length_append] at h2
  exact absurd h2 (by decide)

lemma initJobID_ne_destroyJobID (s : String) : initJobID s ≠ destroyJobID s := by
  intro h
  have h2 := congrArg String.length h
  simp [initJobID, destroyJobID, String.length_append] at h2
  exact absurd h2 (by decide)

lemma destroyInstance_deregisters_reservation (s nodeID : String) (env : DestroyEnv) :
    Action.deregister (resourceJobID s) true ∈ (destroyInstance s nodeID env).2 := by
  unfold destroyInstance
  by_cases h : env.registerDestroyOk
  · simp only [h, not_true_eq_false, if_false]
    cases hout : (pollForJob (destroyJob s nodeID).2 destroyTimeout false
        [JobStatus.dead] env.pollEvents).outcome <;>
      simp [deregisterJob]
  · simp [h, deregisterJob]

lemma destroy_singleton_deregisters (s nodeID : String) (envs : List DestroyEnv) :
    Action.deregister (resourceJobID s) true ∈ (Destroy [(s, nodeID)] envs).2 := by
  have hmem := destroyInstance_deregisters_reservation s nodeID (envs.headD defaultDestroyEnv)
  unfold Destroy
  rcases hd : destroyInstance s nodeID (envs.headD defaultDestroyEnv) with ⟨r, acts⟩
  rw [hd] at hmem
  cases r with
  | error e => simpa using hmem
  | ok u =>
    cases u
    simpa [Destroy] using hmem

/-- C6: for every instance id `s`, the three job ids are the stated prefix
concatenations, they are pairwise distinct, and `Destroy` recomputes the
reservation job id from the instance id alone (its per-instance body
deregisters exactly `resourceJobID s`, computed from `s`, with no stored
mapping consulted). -/
theorem jobID_derivation (s : String) :
    resourceJobID s = "init_job_resources_" ++ s ∧
    initJobID s = "init_job_" ++ s ∧
    destroyJobID s = "destroy_job_" ++ s ∧
    resourceJobID s ≠ initJobID s ∧
    resourceJobID s ≠ destroyJobID s ∧
    initJobID s ≠ destroyJobID s ∧
    (∀ nodeID env, Action.deregister (resourceJobID s) true ∈ (destroyInstance s nodeID env).2) :=
  ⟨rfl, rfl, rfl, resourceJobID_ne_initJobID s, resourceJobID_ne_destroyJobID s,
    initJobID_ne_destroyJobID s, fun nodeID env => destroyInstance_deregisters_reservation s nodeID env⟩

/-- C10: `deregisterJob` ignores its `purge` parameter — the result is
independent of the boolean passed, and the scheduler `Deregister` call is
always issued with `purge = true`. -/
theorem deregisterJob_always_purges (id : String) (p1 p2 ok : Bool) :
    deregisterJob id p1 ok = deregisterJob id p2 ok ∧
    (deregisterJob id p1 ok).2 = [Action.deregister id true] :=
  ⟨rfl, rfl⟩

lemma int64Wrap_eq_self (x : Int) (h1 : -(2 ^ 63) ≤ x) (h2 : x < 2 ^ 63) :
    int64Wrap x = x := by
  unfold int64Wrap
  norm_num at h1 h2 ⊢
  omega

lemma resourceJobCpu_eq (c : Int) (hc : 0 < c) (hb : machineFrequencyMhz * c < 2 ^ 63) :
    resourceJobCpu c = machineFrequencyMhz * c - 109 := by
  unfold machineFrequencyMhz at hb
  unfold resourceJobCpu goMul goSub machineFrequencyMhz
  norm_num at hb
  rw [int64Wrap_eq_self (5100 * c) (by norm_num; omega) (by norm_num; omega)]
  rw [int64Wrap_eq_self (5100 * c - 109) (by norm_num; omega) (by norm_num; omega)]

lemma resourceJobMem_eq (m : Int) (hm : 0 < m) (hb : 1024 * m < 2 ^ 63) :
    resourceJobMem m = 1024 * m - 53 := by
  unfold resourceJobMem convertGigsToMegs goMul goSub
  norm_num at hb
  rw [int64Wrap_eq_self (m * 1024) (by norm_num; omega) (by norm_num; omega)]
  rw [int64Wrap_eq_self (m * 1024 - 53) (by norm_num; omega) (by norm_num; omega)]
  ring

/-- C5 (amended): for positive `cpus` and `memGB` whose products
`5100·cpus` and `1024·memGB` stay below `2^63` (so the program's 64-bit
`int` arithmetic does not overflow), the reservation job's single task
requests exactly `5100·cpus − 109` MHz and `1024·memGB − 53` MiB; both are
strictly below `5100·cpus` and `1024·memGB` and strictly increasing in
their input over that range. -/
theorem reservation_resource_arithmetic (c m : Int) (v : String) (hc : 0 < c) (hm : 0 < m)
    (hcb : machineFrequencyMhz * c < 2 ^ 63) (hmb : 1024 * m < 2 ^ 63) :
    firstTaskResources (resourceJob c m v).1 =
      some { cpu := resourceJobCpu c, memoryMB := resourceJobMem m } ∧
    resourceJobCpu c = 5100 * c - 109 ∧
    resourceJobMem m = 1024 * m - 53 ∧
    resourceJobCpu c < 5100 * c ∧
    resourceJobMem m < 1024 * m ∧
    (∀ c', c < c' → machineFrequencyMhz * c' < 2 ^ 63 →
       resourceJobCpu c < resourceJobCpu c') ∧
    (∀ m', m < m' → 1024 * m' < 2 ^ 63 → resourceJobMem m < resourceJobMem m') := by
  have hce := resourceJobCpu_eq c hc hcb
  have hme := resourceJobMem_eq m hm hmb
  refine ⟨rfl, ?_, ?_, ?_, ?_, ?_, ?_⟩
  · rw [hce]
    rfl
  · rw [hme]
  · rw [hce]
    unfold machineFrequencyMhz
    omega
  · rw [hme]
    omega
  · intro c' h hb'
    rw [hce, resourceJobCpu_eq c' (by omega) hb']
    unfold machineFrequencyMhz
    omega
  · intro m' h hb'
    rw [hme, resourceJobMem_eq m' (by omega) hb']
    omega

/-- Witness for C5 at `cpus = 2`, `memGB = 4`. -/
theorem reservation_resource_arithmetic_witness :
    firstTaskResources (resourceJob 2 4 "x").1 = some { cpu := 10091, memoryMB := 4043 } := by
  have h := (reservation_resource_arithmetic 2 4 "x" (by decide) (by decide)
    (by decide) (by decide)).1
  rw [h]
  decide

/-- Counterexample for C5 as stated: `vm_cpus = 2·10^15` passes the
program's validation (`Atoi` succeeds), but `5100 × 2·10^15` overflows the
64-bit `int`, so the reservation job requests a wrapped, negative cpu
value: the exact formula fails at this accepted input, and the request is
not increasing in `vm_cpus` (it is smaller than the request at
`vm_cpus = 1`). -/
theorem reservation_overflow_cex :
    goAtoi "2000000000000000" = some 2000000000000000 ∧
    firstTaskResources (resourceJob 2000000000000000 1 "x").1 =
      some { cpu := -8246744073709551725, memoryMB := 971 } ∧
    (-8246744073709551725 : Int) ≠ 5100 * 2000000000000000 - 109 ∧
    firstTaskResources (resourceJob 1 1 "x").1 = some { cpu := 4991, memoryMB := 971 } ∧
    ¬ ((4991 : Int) < -8246744073709551725) := by
  refine ⟨by decide, by decide, by decide, by decide, by decide⟩

/-- C4 (amended): all three job templates are batch-type, single datacenter
`dc1`, exactly one task group with count 1, `stop_after_client_disconnect`
of 4 minutes; reservation and init set reschedule attempts 0 and restart
attempts 0, the destroy job sets restart attempts 3 and leaves the
reschedule policy unset. -/
theorem jobTemplate_shape (cpus memGB hostPort : Int) (vm script nodeID : String) :
    ((resourceJob cpus memGB vm).1.jobType = "batch" ∧
     (initJob vm script hostPort nodeID).1.jobType = "batch" ∧
     (destroyJob vm nodeID).1.jobType = "batch") ∧
    ((resourceJob cpus memGB vm).1.datacenters = ["dc1"] ∧
     (initJob vm script hostPort nodeID).1.datacenters = ["dc1"] ∧
     (destroyJob vm nodeID).1.datacenters = ["dc1"]) ∧
    ((resourceJob cpus memGB vm).1.reschedule = some { attempts := 0, unlimited := false } ∧
     (initJob vm script hostPort nodeID).1.reschedule = some { attempts := 0, unlimited := false } ∧
     (destroyJob vm nodeID).1.reschedule = none) ∧
    ((resourceJob cpus memGB vm).1.taskGroups.map
        (fun g => (g.count, g.stopAfterClientDisconnect, g.restartPolicy)) =
      [(1, some clientDisconnectTimeout, some { attempts := 0 })] ∧
     (initJob vm script hostPort nodeID).1.taskGroups.map
        (fun g => (g.count, g.stopAfterClientDisconnect, g.restartPolicy)) =
      [(1, some clientDisconnectTimeout, some { attempts := 0 })] ∧
     (destroyJob vm nodeID).1.taskGroups.map
        (fun g => (g.count, g.stopAfterClientDisconnect, g.restartPolicy)) =
      [(1, some clientDisconnectTimeout, some { attempts := destroyRetryAttempts })]) ∧
    clientDisconnectTimeout = 4 * 60 ∧ destroyRetryAttempts = 3 := by
  exact ⟨⟨rfl, rfl, rfl⟩, ⟨rfl, rfl, rfl⟩, ⟨rfl, rfl, rfl⟩, ⟨rfl, rfl, rfl⟩, rfl, rfl⟩

/-- Counterexample for C4 as stated: the destroy job template sets no
reschedule policy at all, so its reschedule attempts are not 0 (the field
is `none`, not `some` a policy with 0 attempts). -/
theorem destroyJob_reschedule_cex :
    (destroyJob "a" "n").1.reschedule = none ∧
    (destroyJob "a" "n").1.reschedule ≠ some { attempts := 0, unlimited := false } := by
  exact ⟨rfl, by decide⟩

lemma pollLoop_terminal_mem (terminal : List JobStatus) (job : Option JobStatus)
    (events : List PollEvent) (s : JobStatus)
    (h : pollLoop terminal job events = (some s, true)) : s ∈ terminal := by
  induction events generalizing job with
  | nil => simp [pollLoop] at h
  | cons e es ih =>
    cases e with
    | ctxDone => simp [pollLoop] at h
    | timeout => simp [pollLoop] at h
    | fetchErr => exact ih none h
    | fetchNil => exact ih none h
    | fetchOk s' =>
      by_cases hc : s' ∈ terminal
      · simp [pollLoop, hc] at h
        exact h ▸ hc
      · simp [pollLoop, hc] at h
        exact ih (some s') h

lemma pollLoop_nonterminal_not_mem (terminal : List JobStatus) (job : Option JobStatus)
    (events : List PollEvent) (s : JobStatus)
    (hjob : ∀ t, job = some t → t ∉ terminal)
    (h : pollLoop terminal job events = (some s, false)) : s ∉ terminal := by
  induction events generalizing job with
  | nil =>
    simp [pollLoop] at h
    exact hjob s h
  | cons e es ih =>
    cases e with
    | ctxDone =>
      simp [pollLoop] at h
      exact hjob s h
    | timeout =>
      simp [pollLoop] at h
      exact hjob s h
    | fetchErr => exact ih none (by intro t ht; cases ht) h
    | fetchNil => exact ih none (by intro t ht; cases ht) h
    | fetchOk s' =>
      by_cases hc : s' ∈ terminal
      · simp [pollLoop, hc] at h
      · simp [pollLoop, hc] at h
        refine ih (some s') ?_ h
        intro t ht
        injection ht with ht
        subst ht
        exact hc

lemma pollForJob_noJob_eq (id : String) (tmo : Nat) (remove : Bool)
    (terminalStates : List JobStatus) (events : List PollEvent) (b : Bool)
    (h : pollLoop (terminalStates ++ [JobStatus.dead]) none events = (none, b)) :
    pollForJob id tmo remove terminalStates events = { outcome := .noJob, actions := [] } := by
  unfold pollForJob
  rw [h]

lemma pollForJob_success_eq (id : String) (tmo : Nat) (remove : Bool)
    (terminalStates : List JobStatus) (events : List PollEvent) (s : JobStatus)
    (h : pollLoop (terminalStates ++ [JobStatus.dead]) none events = (some s, true)) :
    pollForJob id tmo remove terminalStates events = { outcome := .success s, actions := [] } := by
  unfold pollForJob
  rw [h]

lemma pollForJob_neverTerminal_eq (id : String) (tmo : Nat) (remove : Bool)
    (terminalStates : List JobStatus) (events : List PollEvent) (s : JobStatus)
    (h : pollLoop (terminalStates ++ [JobStatus.dead]) none events = (some s, false)) :
    pollForJob id tmo remove terminalStates events =
      { outcome := .neverTerminal s,
        actions := if remove then [Action.deregister id true] else [] } := by
  unfold pollForJob
  rw [h]
  cases remove <;> simp [deregisterJob]

/-- C2: the poller succeeds exactly on a last observed status inside
`terminalStates ∪ {Dead}` (a success carries such a status, a
"never reached terminal state" outcome carries a status outside the set),
and in the latter case, with `remove` set, it performs exactly the detached
`Deregister(id, purge = true)` call before returning; with a nil final job
("could not poll for job") or on success it performs no action. -/
theorem pollForJob_contract (id : String) (tmo : Nat) (remove : Bool)
    (terminalStates : List JobStatus) (events : List PollEvent) :
    (∀ s, (pollForJob id tmo remove terminalStates events).outcome = PollOutcome.success s →
       s ∈ terminalStates ∨ s = JobStatus.dead) ∧
    (∀ s, (pollForJob id tmo remove terminalStates events).outcome = PollOutcome.neverTerminal s →
       ¬ (s ∈ terminalStates ∨ s = JobStatus.dead)) ∧
    (∀ s, (pollForJob id tmo remove terminalStates events).outcome = PollOutcome.success s →
       (pollForJob id tmo remove terminalStates events).actions = []) ∧
    (∀ s, (pollForJob id tmo remove terminalStates events).outcome = PollOutcome.neverTerminal s →
       (pollForJob id tmo remove terminalStates events).actions =
         if remove then [Action.deregister id true] else []) ∧
    ((pollForJob id tmo remove terminalStates events).outcome = PollOutcome.noJob →
       (pollForJob id tmo remove terminalStates events).actions = []) := by
  rcases hp : pollLoop (terminalStates ++ [JobStatus.dead]) none events with ⟨job, term⟩
  cases job with
  | none =>
    rw [pollForJob_noJob_eq id tmo remove terminalStates events term hp]
    refine ⟨?_, ?_, ?_, ?_, ?_⟩
    · intro s h; simp at h
    · intro s h; simp at h
    · intro s h; rfl
    · intro s h; simp at h
    · intro h; rfl
  | some s0 =>
    cases term with
    | true =>
      rw [pollForJob_success_eq id tmo remove terminalStates events s0 hp]
      have hmem : s0 ∈ terminalStates ∨ s0 = JobStatus.dead := by
        have hc := pollLoop_terminal_mem _ _ _ _ hp
        simpa using hc
      refine ⟨?_, ?_, ?_, ?_, ?_⟩
      · intro s h
        simp at h
        subst h
        exact hmem
      · intro s h; simp at h
      · intro s h; rfl
      · intro s h; simp at h
      · intro h; rfl
    | false =>
      rw [pollForJob_neverTerminal_eq id tmo remove terminalStates events s0 hp]
      have hnot : ¬ (s0 ∈ terminalStates ∨ s0 = JobStatus.dead) := by
        have hc := pollLoop_nonterminal_not_mem _ _ _ _ (by intro t ht; cases ht) hp
        simpa using hc
      refine ⟨?_, ?_, ?_, ?_, ?_⟩
      · intro s h; simp at h
      · intro s h
        simp at h
        subst h
        exact hnot
      · intro s h; simp at h
      · intro s h; rfl
      · intro h; simp at h

/-- Witness for C2: on a trace observing `Running` with terminal set
`{Running}`, the poller succeeds with a status inside the terminal set. -/
theorem pollForJob_contract_witness :
    JobStatus.running ∈ [JobStatus.running] ∨ JobStatus.running = JobStatus.dead :=
  (pollForJob_contract "job" 180 true [JobStatus.running]
    [PollEvent.fetchOk JobStatus.running]).1 JobStatus.running (by decide)

lemma pollForJob_remove_false_actions (id : String) (tmo : Nat)
    (terminalStates : List JobStatus) (events : List PollEvent) :
    (pollForJob id tmo false terminalStates events).actions = [] := by
  rcases hp : pollLoop (terminalStates ++ [JobStatus.dead]) none events with ⟨job, term⟩
  cases job with
  | none => rw [pollForJob_noJob_eq id tmo false terminalStates events term hp]
  | some s0 =>
    cases term with
    | true => rw [pollForJob_success_eq id tmo false terminalStates events s0 hp]
    | false =>
      rw [pollForJob_neverTerminal_eq id tmo false terminalStates events s0 hp]
      simp

lemma destroyInstance_regFail_eq (vm nodeID : String) (env : DestroyEnv)
    (h : env.registerDestroyOk = false) :
    destroyInstance vm nodeID env =
      (Except.error "scheduler: could not register destroy job",
       [Action.deregister (resourceJobID vm) true, Action.register (destroyJobID vm)]) := by
  unfold destroyInstance
  simp [destroyJob, deregisterJob, h]

lemma destroyInstance_reg_eq (vm nodeID : String) (env : DestroyEnv)
    (h : env.registerDestroyOk = true) :
    destroyInstance vm nodeID env =
      ((match (pollForJob (destroyJobID vm) destroyTimeout false [JobStatus.dead]
            env.pollEvents).outcome with
        | PollOutcome.success _ => Except.ok ()
        | PollOutcome.noJob => Except.error "could not poll for job"
        | PollOutcome.neverTerminal _ =>
          Except.error "scheduler: job never reached terminal state"),
       [Action.deregister (resourceJobID vm) true, Action.register (destroyJobID vm),
        Action.poll (destroyJobID vm) false]) := by
  unfold destroyInstance
  simp only [destroyJob, h, not_true_eq_false, if_false]
  cases hout : (pollForJob (destroyJobID vm) destroyTimeout false [JobStatus.dead]
      env.pollEvents).outcome <;>
    simp [deregisterJob, pollForJob_remove_false_actions, hout]

/-- C8: in a `Destroy` iteration, the reservation deregistration is always
issued; its failure does not abort (the destroy job is still registered);
a destroy-job registration failure is returned as the error; the
destroy-job poll is invoked with `remove = false`; a poll that never
reaches a terminal state is returned as an error; and no path deregisters
the destroy job. -/
theorem destroy_failure_semantics (vm nodeID : String) (env : DestroyEnv) :
    (Action.deregister (resourceJobID vm) true ∈ (destroyInstance vm nodeID env).2) ∧
    (env.deregResourceOk = false →
       Action.register (destroyJobID vm) ∈ (destroyInstance vm nodeID env).2) ∧
    (env.registerDestroyOk = false →
       (destroyInstance vm nodeID env).1 =
         Except.error "scheduler: could not register destroy job") ∧
    (env.registerDestroyOk = true →
       Action.poll (destroyJobID vm) false ∈ (destroyInstance vm nodeID env).2) ∧
    (∀ s, env.registerDestroyOk = true →
       (pollForJob (destroyJobID vm) destroyTimeout false [JobStatus.dead]
           env.pollEvents).outcome = PollOutcome.neverTerminal s →
       (destroyInstance vm nodeID env).1 =
         Except.error "scheduler: job never reached terminal state") ∧
    (∀ b, Action.deregister (destroyJobID vm) b ∉ (destroyInstance vm nodeID env).2) := by
  have hne : resourceJobID vm ≠ destroyJobID vm := resourceJobID_ne_destroyJobID vm
  by_cases hr : env.registerDestroyOk = true
  · rw [destroyInstance_reg_eq vm nodeID env hr]
    refine ⟨by simp, fun h => by simp, fun h => absurd hr (by simp [h]), fun h => by simp,
      ?_, ?_⟩
    · intro s h hp
      simp [hp]
    · intro b hb
      simp at hb
      exact hne hb.1.symm
  · have hr' : env.registerDestroyOk = false := by simpa using hr
    rw [destroyInstance_regFail_eq vm nodeID env hr']
    refine ⟨by simp, fun h => by simp, fun h => rfl, fun h => absurd h (by simp [hr']),
      ?_, ?_⟩
    · intro s h hp
      exact absurd h (by simp [hr'])
    · intro b hb
      simp at hb
      exact hne hb.1.symm

/-- Witness for C8: with a failing reservation deregistration the destroy
job is still registered. -/
theorem destroy_failure_semantics_witness :
    Action.register (destroyJobID "v") ∈
      (destroyInstance "v" "n"
        { deregResourceOk := false, registerDestroyOk := true,
          pollEvents := [PollEvent.fetchOk JobStatus.dead] }).2 :=
  (destroy_failure_semantics "v" "n"
    { deregResourceOk := false, registerDestroyOk := true,
      pollEvents := [PollEvent.fetchOk JobStatus.dead] }).2.1 rfl

/-- A scheduler environment whose reservation registration fails at once
(used to observe that `Create` reached the scheduler). -/
def benignCreateEnv : CreateEnv :=
  { registerResourceOk := false
    pollResourceEvents := []
    machine := { allocationsResp := .ok [], allocInfoResp := .ok { networks := [] },
                 nodeResp := .ok "" }
    registerInitOk := true
    pollInitEvents := []
    summaryResp := .ok none
    destroyEnv := defaultDestroyEnv }

/-- C3 (amended): a non-numeric `vm_cpus` (or, with numeric cpus, a
non-numeric `vm_memory_gb`) makes `Create` return the conversion error
with an empty action trace — before any scheduler call. (`"0"` is numeric:
it passes this validation, see the counterexample.) -/
theorem create_validation_boundary (p : Config) (vm script : String) (env : CreateEnv) :
    (goAtoi p.vmCpus = none →
       Create p vm script env =
         some (.error "could not convert VM cpus to integer", [])) ∧
    (∀ c, goAtoi p.vmCpus = some c → goAtoi p.vmMemoryGB = none →
       Create p vm script env =
         some (.error "could  not convert VM memory to integer", [])) := by
  constructor
  · intro h
    unfold Create
    rw [h]
  · intro c hc hm
    unfold Create
    rw [hc, hm]

/-- Witness for C3 at the non-numeric cpu string `"abc"`. -/
theorem create_validation_boundary_witness :
    Create { vmImage := "", vmMemoryGB := "1", vmCpus := "abc", vmDiskSize := "" } "v" "s"
        benignCreateEnv =
      some (.error "could not convert VM cpus to integer", []) :=
  (create_validation_boundary
    { vmImage := "", vmMemoryGB := "1", vmCpus := "abc", vmDiskSize := "" }
    "v" "s" benignCreateEnv).1 (by decide)

/-- Counterexample for C3 as stated: `vm_cpus = "0"` parses successfully
(`Atoi("0") = 0`; there is no zero check), so `Create` raises no validation
error and proceeds to issue the scheduler `Register` call for the
reservation job. -/
theorem create_zero_cpus_cex :
    goAtoi "0" = some 0 ∧
    Create { vmImage := "", vmMemoryGB := "1", vmCpus := "0", vmDiskSize := "" } "v" "s"
        benignCreateEnv =
      some (.error "scheduler: could not register job",
        [Action.register (resourceJobID "v")]) := by
  exact ⟨by decide, rfl⟩

/-- Does the first network of the allocation detail (when there is one)
carry at least one dynamic port? This is the unchecked precondition of the
`DynamicPorts[0]` access in `fetchMachine`. -/
def firstNetworkPortTotal (detail : AllocDetail) : Bool :=
  match detail.networks with
  | [] => true
  | nw :: _ => !nw.dynamicPorts.isEmpty

/-- The error conditions of the machine resolver as the specification lists
them: no allocations found, missing node/alloc id, missing networks,
out-of-range port, unparseable IP (stated over the scheduler's responses). -/
def resolveErrCond (allocs : List AllocStub) (detail : AllocDetail) (httpAddr : String) : Bool :=
  match allocs with
  | [] => true
  | a :: _ =>
    a.nodeID == "" || a.id == "" ||
    (match detail.networks with
     | [] => true
     | nw :: _ =>
       match nw.dynamicPorts with
       | [] => false
       | port :: _ =>
         decide (port ≤ 0) || decide (port > 65535) ||
           !goParseIPOk (splitHostSegment httpAddr))

/-- C7: over scheduler responses (successful RPCs, first network
port-total), `fetchMachine` fails exactly under the listed error
conditions, and on success returns the first allocation's node id, the
first network's first dynamic port value, and the host segment of the
node's HTTP address. -/
theorem fetchMachine_resolution (allocs : List AllocStub) (detail : AllocDetail)
    (httpAddr : String) (hport : firstNetworkPortTotal detail = true) :
    ((∃ e, fetchMachine (.ok allocs) (.ok detail) (.ok httpAddr) = some (.error e)) ↔
       resolveErrCond allocs detail httpAddr = true) ∧
    (∀ m, fetchMachine (.ok allocs) (.ok detail) (.ok httpAddr) = some (.ok m) →
       (∃ a rest, allocs = a :: rest ∧ m.nodeID = a.nodeID) ∧
       (∃ nw nws, detail.networks = nw :: nws ∧
          ∃ v vs, nw.dynamicPorts = v :: vs ∧ m.port = v) ∧
       m.ip = splitHostSegment httpAddr) := by
  rcases detail with ⟨networks⟩
  cases allocs with
  | nil =>
    refine ⟨iff_of_true ⟨"scheduler: no allocation found for the job", rfl⟩
      (by simp [resolveErrCond]), ?_⟩
    intro m hm
    simp [fetchMachine] at hm
  | cons a rest =>
    by_cases hid : a.nodeID = "" ∨ a.id = ""
    · have heq : fetchMachine (.ok (a :: rest)) (.ok ⟨networks⟩) (.ok httpAddr) =
        some (.error "scheduler: could not find an allocation identifier for the job") := by
        simp only [fetchMachine, if_pos hid]
      refine ⟨iff_of_true ⟨_, heq⟩ ?_, ?_⟩
      · rcases hid with h | h <;> simp [resolveErrCond, h]
      · intro m hm
        rw [heq] at hm
        simp at hm
    · cases networks with
      | nil =>
        have heq : fetchMachine (.ok (a :: rest)) (.ok ⟨[]⟩) (.ok httpAddr) =
            some (.error "scheduler: could not allocate network and ports for job") := by
          simp only [fetchMachine, if_neg hid]
        refine ⟨iff_of_true ⟨_, heq⟩ (by simp [resolveErrCond]), ?_⟩
        intro m hm
        rw [heq] at hm
        simp at hm
      | cons nw nws =>
        rcases nw with ⟨dps⟩
        cases dps with
        | nil => exact absurd hport (by simp [firstNetworkPortTotal])
        | cons port ps =>
          have h1 : a.nodeID ≠ "" := fun h => hid (Or.inl h)
          have h2 : a.id ≠ "" := fun h => hid (Or.inr h)
          by_cases hrange : port ≤ 0 ∨ port > 65535
          · have heq : fetchMachine (.ok (a :: rest))
                (.ok ⟨{ dynamicPorts := port :: ps } :: nws⟩) (.ok httpAddr) =
                some (.error "scheduler: port generated is not a valid port") := by
              simp only [fetchMachine, if_neg hid, if_pos hrange]
            refine ⟨iff_of_true ⟨_, heq⟩ ?_, ?_⟩
            · simp only [resolveErrCond, Bool.or_eq_true, beq_iff_eq, decide_eq_true_eq]
              tauto
            · intro m hm
              rw [heq] at hm
              simp at hm
          · have h3 : ¬ port ≤ 0 := fun h => hrange (Or.inl h)
            have h4 : ¬ port > 65535 := fun h => hrange (Or.inr h)
            by_cases hip : goParseIPOk (splitHostSegment httpAddr) = true
            · have heq : fetchMachine (.ok (a :: rest))
                  (.ok ⟨{ dynamicPorts := port :: ps } :: nws⟩) (.ok httpAddr) =
                  some (.ok { ip := splitHostSegment httpAddr, nodeID := a.nodeID,
                              port := port }) := by
                simp only [fetchMachine, if_neg hid, if_neg hrange, if_pos hip]
              refine ⟨iff_of_false ?_ ?_, ?_⟩
              · rintro ⟨e, he⟩
                rw [heq] at he
                simp at he
              · simp [resolveErrCond, h1, h2, h3, h4, hip]
              · intro m hm
                rw [heq] at hm
                injection hm with hm2
                injection hm2 with hm3
                subst hm3
                exact ⟨⟨a, rest, rfl, rfl⟩,
                  ⟨{ dynamicPorts := port :: ps }, nws, rfl, port, ps, rfl, rfl⟩, rfl⟩
            · have heq : fetchMachine (.ok (a :: rest))
                  (.ok ⟨{ dynamicPorts := port :: ps } :: nws⟩) (.ok httpAddr) =
                  some (.error "scheduler: could not parse client machine IP") := by
                simp only [fetchMachine, if_neg hid, if_neg hrange, if_neg hip]
              refine ⟨iff_of_true ⟨_, heq⟩ ?_, ?_⟩
              · simp [resolveErrCond, h1, h2, h3, h4, hip]
              · intro m hm
                rw [heq] at hm
                simp at hm

/-- Witness for C7 on the specification's happy-path scheduler responses:
one allocation on node `n1`, dynamic port 27017, node address
`10.0.0.5:4646`. -/
theorem fetchMachine_resolution_witness :
    (∃ e, fetchMachine (.ok [{ nodeID := "n1", id := "a1" }])
        (.ok { networks := [{ dynamicPorts := [27017] }] })
        (.ok "10.0.0.5:4646") = some (.error e)) ↔
      resolveErrCond [{ nodeID := "n1", id := "a1" }]
        { networks := [{ dynamicPorts := [27017] }] } "10.0.0.5:4646" = true :=
  (fetchMachine_resolution [{ nodeID := "n1", id := "a1" }]
    { networks := [{ dynamicPorts := [27017] }] } "10.0.0.5:4646" (by decide)).1

/-- C9: `fetchMachine` is panic-free for every triple of scheduler
responses in which a successful allocation detail has a port-total first
network; the access is indeed unguarded — on a detail whose first network
has no dynamic port it panics (`none`). -/
theorem fetchMachine_panic_freedom :
    (∀ (ar : Except String (List AllocStub)) (ir : Except String AllocDetail)
       (nr : Except String String),
       (∀ detail, ir = Except.ok detail → firstNetworkPortTotal detail = true) →
       (fetchMachine ar ir nr).isSome) ∧
    fetchMachine (.ok [{ nodeID := "n1", id := "a1" }])
      (.ok { networks := [{ dynamicPorts := [] }] }) (.ok "10.0.0.5:4646") = none := by
  constructor
  · intro ar ir nr hport
    cases ar with
    | error e => simp [fetchMachine]
    | ok l =>
      cases l with
      | nil => simp [fetchMachine]
      | cons a rest =>
        by_cases hid : a.nodeID = "" ∨ a.id = ""
        · simp [fetchMachine, if_pos hid]
        · cases ir with
          | error e => simp [fetchMachine, if_neg hid]
          | ok detail =>
            have hp := hport detail rfl
            rcases detail with ⟨networks⟩
            cases networks with
            | nil => simp [fetchMachine, if_neg hid]
            | cons nw nws =>
              rcases nw with ⟨dps⟩
              cases dps with
              | nil => exact absurd hp (by simp [firstNetworkPortTotal])
              | cons port ps =>
                by_cases hrange : port ≤ 0 ∨ port > 65535
                · simp [fetchMachine, if_neg hid, if_pos hrange]
                · cases nr with
                  | error e => simp [fetchMachine, if_neg hid, if_neg hrange]
                  | ok httpAddr =>
                    by_cases hip : goParseIPOk (splitHostSegment httpAddr) = true
                    · simp [fetchMachine, if_neg hid, if_neg hrange, hip]
                    · simp [fetchMachine, if_neg hid, if_neg hrange, hip]
  · rfl

/-- Witness for C9 on the happy-path scheduler responses. -/
theorem fetchMachine_panic_freedom_witness :
    (fetchMachine (.ok [{ nodeID := "n1", id := "a1" }])
      (.ok { networks := [{ dynamicPorts := [27017] }] })
      (.ok "10.0.0.5:4646")).isSome :=
  fetchMachine_panic_freedom.1 (.ok [{ nodeID := "n1", id := "a1" }])
    (.ok { networks := [{ dynamicPorts := [27017] }] }) (.ok "10.0.0.5:4646")
    (by
      intro detail h
      injection h with h2
      subst h2
      decide)

lemma resourceJob_snd (c m : Int) (v : String) : (resourceJob c m v).2 = resourceJobID v := rfl

lemma initJob_snd_fst (vm s : String) (hp : Int) (n : String) :
    (initJob vm s hp n).2.1 = initJobID vm := rfl

lemma pollForJob_actions_eq (id : String) (tmo : Nat) (remove : Bool)
    (terminalStates : List JobStatus) (events : List PollEvent) :
    (pollForJob id tmo remove terminalStates events).actions =
      match (pollForJob id tmo remove terminalStates events).outcome with
      | PollOutcome.neverTerminal _ => if remove then [Action.deregister id true] else []
      | _ => [] := by
  rcases hp : pollLoop (terminalStates ++ [JobStatus.dead]) none events with ⟨job, term⟩
  cases job with
  | none => rw [pollForJob_noJob_eq id tmo remove terminalStates events term hp]
  | some s0 =>
    cases term with
    | true => rw [pollForJob_success_eq id tmo remove terminalStates events s0 hp]
    | false => rw [pollForJob_neverTerminal_eq id tmo remove terminalStates events s0 hp]

lemma Create_atoiCpu_fail_eq (p : Config) (vm script : String) (env : CreateEnv)
    (h : goAtoi p.vmCpus = none) :
    Create p vm script env = some (.error "could not convert VM cpus to integer", []) := by
  unfold Create
  rw [h]

lemma Create_atoiMem_fail_eq (p : Config) (vm script : String) (env : CreateEnv) (cpus : Int)
    (hA : goAtoi p.vmCpus = some cpus) (hM : goAtoi p.vmMemoryGB = none) :
    Create p vm script env = some (.error "could  not convert VM memory to integer", []) := by
  unfold Create
  rw [hA, hM]

/-- C1 (amended): once `Create` has successfully registered the reservation
job, every error return also issues a deregistration of
`resourceJobID vm` (directly, via the poller's removal, or via the
compensating `Destroy`), provided the reservation poll did not fail with
the "could not poll for job" outcome (the job variable never observed). -/
theorem create_reservation_compensation (p : Config) (vm script : String) (env : CreateEnv)
    (e : String) (acts : List Action)
    (hres : Create p vm script env = some (.error e, acts))
    (hregOk : env.registerResourceOk = true)
    (hreg : Action.register (resourceJobID vm) ∈ acts)
    (hpoll : (pollForJob (resourceJobID vm) resourceJobTimeout true
        [JobStatus.running, JobStatus.dead] env.pollResourceEvents).outcome ≠
        PollOutcome.noJob) :
    Action.deregister (resourceJobID vm) true ∈ acts := by
  cases hA : goAtoi p.vmCpus with
  | none =>
    rw [Create_atoiCpu_fail_eq p vm script env hA] at hres
    simp at hres
    rcases hres with ⟨-, hacts⟩
    subst hacts
    simp at hreg
  | some cpus =>
    cases hM : goAtoi p.vmMemoryGB with
    | none =>
      rw [Create_atoiMem_fail_eq p vm script env cpus hA hM] at hres
      simp at hres
      rcases hres with ⟨-, hacts⟩
      subst hacts
      simp at hreg
    | some memGB =>
      have hactsRes := pollForJob_actions_eq (resourceJobID vm) resourceJobTimeout true
        [JobStatus.running, JobStatus.dead] env.pollResourceEvents
      unfold Create at hres
      rw [hA, hM] at hres
      simp only [resourceJob_snd] at hres
      rw [hregOk] at hres
      simp only [eq_self_iff_true, not_true, if_false, ite_false, Bool.true_eq_false,
        not_true_eq_false] at hres
      cases hout : (pollForJob (resourceJobID vm) resourceJobTimeout true
          [JobStatus.running, JobStatus.dead] env.pollResourceEvents).outcome with
      | noJob => exact absurd hout hpoll
      | neverTerminal s =>
        rw [hout] at hactsRes
        simp at hactsRes
        rw [hout, hactsRes] at hres
        simp at hres
        rcases hres with ⟨-, hacts⟩
        subst hacts
        simp
      | success s =>
        rw [hout] at hactsRes
        simp at hactsRes
        rw [hout, hactsRes] at hres
        cases hf : fetchMachine env.machine.allocationsResp env.machine.allocInfoResp
            env.machine.nodeResp with
        | none =>
          rw [hf] at hres
          simp at hres
        | some r =>
          rw [hf] at hres
          cases r with
          | error e0 =>
            simp [deregisterJob] at hres
            rcases hres with ⟨-, hacts⟩
            subst hacts
            simp
          | ok m =>
            have hDestroy := destroy_singleton_deregisters vm m.nodeID [env.destroyEnv]
            by_cases hri : env.registerInitOk = true
            · have hactsInit := pollForJob_actions_eq (initJobID vm) initTimeout true
                [JobStatus.dead] env.pollInitEvents
              simp only [initJob_snd_fst] at hres
              rw [hri] at hres
              simp only [eq_self_iff_true, not_true, if_false, ite_false,
                Bool.true_eq_false, not_true_eq_false] at hres
              cases hout2 : (pollForJob (initJobID vm) initTimeout true [JobStatus.dead]
                  env.pollInitEvents).outcome with
              | noJob =>
                rw [hout2] at hactsInit
                simp at hactsInit
                rw [hout2, hactsInit] at hres
                simp at hres
                rcases hres with ⟨-, hacts⟩
                subst hacts
                simp [hDestroy]
              | neverTerminal s2 =>
                rw [hout2] at hactsInit
                simp at hactsInit
                rw [hout2, hactsInit] at hres
                simp at hres
                rcases hres with ⟨-, hacts⟩
                subst hacts
                simp [hDestroy]
              | success s2 =>
                rw [hout2] at hactsInit
                simp at hactsInit
                rw [hout2, hactsInit] at hres
                cases hcheck : checkTaskGroupStatus env.summaryResp
                    (initJob vm script m.port m.nodeID).2.2 with
                | ok u =>
                  cases u
                  rw [hcheck] at hres
                  simp at hres
                | error e1 =>
                  rw [hcheck] at hres
                  simp at hres
                  rcases hres with ⟨-, hacts⟩
                  subst hacts
                  simp [hDestroy]
            · have hri2 : env.registerInitOk = false := by simpa using hri
              simp only [initJob_snd_fst] at hres
              rw [hri2] at hres
              simp [deregisterJob] at hres
              rcases hres with ⟨-, hacts⟩
              subst hacts
              simp

/-- Witness for C1 (amended): a reservation poll that observes the job in
`Pending` until the timer fires triggers the poller's detached
deregistration, which appears in the error path's action trace. -/
theorem create_reservation_compensation_witness :
    Action.deregister (resourceJobID "v") true ∈
      [Action.register (resourceJobID "v"), Action.poll (resourceJobID "v") true,
       Action.deregister (resourceJobID "v") true] :=
  create_reservation_compensation
    { vmImage := "img", vmMemoryGB := "1", vmCpus := "1", vmDiskSize := "10GB" } "v" "s"
    { registerResourceOk := true
      pollResourceEvents := [PollEvent.fetchOk JobStatus.pending, PollEvent.timeout]
      machine := { allocationsResp := .ok [], allocInfoResp := .ok { networks := [] },
                   nodeResp := .ok "" }
      registerInitOk := true
      pollInitEvents := []
      summaryResp := .ok none
      destroyEnv := defaultDestroyEnv }
    "scheduler: could not find a node with available resources"
    [Action.register (resourceJobID "v"), Action.poll (resourceJobID "v") true,
     Action.deregister (resourceJobID "v") true]
    rfl rfl (by decide) (by decide)

/-- Counterexample for C1 as stated: the reservation registration succeeds,
but every subsequent status fetch fails until the poll timer fires, so the
poll fails with "could not poll for job" — a `WAIT_RESERVATION_RUNNING`
failure — and `Create` returns the error having issued no deregistration
of the reservation job. -/
theorem create_reservation_leak_cex :
    Create { vmImage := "img", vmMemoryGB := "1", vmCpus := "1", vmDiskSize := "10GB" } "v" "s"
        { registerResourceOk := true
          pollResourceEvents := [PollEvent.fetchErr, PollEvent.timeout]
          machine := { allocationsResp := .ok [], allocInfoResp := .ok { networks := [] },
                       nodeResp := .ok "" }
          registerInitOk := true
          pollInitEvents := []
          summaryResp := .ok none
          destroyEnv := defaultDestroyEnv } =
      some (.error "scheduler: could not find a node with available resources",
        [Action.register (resourceJobID "v"), Action.poll (resourceJobID "v") true]) ∧
    Action.deregister (resourceJobID "v") true ∉
      [Action.register (resourceJobID "v"), Action.poll (resourceJobID "v") true] := by
  exact ⟨rfl, by decide⟩

end DroneNomad
